import Mathlib

/-!
Verification of the content-lifecycle and interaction data model of the
Blogsite platform (Django app `blog`): the `Post.save` derived-field
pipeline (slug, excerpt, reading time, published timestamp), the
view-count increment, like toggling, comment threading and validation,
and the post-detail visibility query.

Machine integers, timestamps and identifiers are modelled as `Nat`;
the relational store is modelled as lists of records; Django querysets
become list filters and sorts.
-/

namespace Blogsite

/-! ### External collaborators (plain-text renderer, slugifier)

The spec treats `strip_markup` (django.utils.html.strip_tags) and the
slugifier (django.utils.text.slugify) as external pure functions.  They
are modelled concretely here: `stripTags` drops everything between `<`
and `>`, `slugify` lowercases and hyphenates.  No claim depends on their
exact behaviour, only on their being fixed pure functions. -/

/-- Models the external plain-text renderer: drop all characters that lie
inside an angle-bracket tag. -/
def stripTagsAux : List Char → Bool → List Char
  | [], _ => []
  | c :: cs, inTag =>
    if inTag then
      if c = '>' then stripTagsAux cs false else stripTagsAux cs true
    else
      if c = '<' then stripTagsAux cs true else c :: stripTagsAux cs false

/-- Models `django.utils.html.strip_tags`, the external plain-text
renderer (`strip_markup` in the spec). -/
def stripTags (s : String) : String := ⟨stripTagsAux s.data false⟩

/-- Counts maximal whitespace-separated words, walking the characters
with an in-word flag.  Models Python `len(text.split())`. -/
def countWordsAux : List Char → Bool → Nat
  | [], _ => 0
  | c :: cs, inWord =>
    if c.isWhitespace then countWordsAux cs false
    else (if inWord then 0 else 1) + countWordsAux cs true

/-- Models Python `len(text.split())`: the number of maximal
whitespace-separated words of `s`. -/
def wordCount (s : String) : Nat := countWordsAux s.data false

/-- Models Python string slicing `s[:n]`: the first `n` characters. -/
def strTake (s : String) (n : Nat) : String := ⟨s.data.take n⟩

/-- Models Python `round(num / den)` on the exact rational `num / den`:
round-half-to-even (banker's rounding), as Python's builtin `round`
does.  Floating-point representation error is disregarded. -/
def pyRound (num den : Nat) : Nat :=
  let q := num / den
  let r := num % den
  if 2 * r < den then q
  else if 2 * r > den then q + 1
  else if q % 2 = 0 then q else q + 1

/-- Models `django.utils.text.slugify`, the external slugifier: URL-safe
token from a title.  Modelled as lowercasing with spaces replaced by
hyphens; no claim depends on its exact behaviour. -/
def slugify (s : String) : String :=
  ⟨s.data.map fun c => if c = ' ' then Char.ofNat 45 else Char.toLower c⟩

/-! ### The Post record (blog/models.py, `Post(TimeStampedModel)`)

Timestamps (`created_at`, `updated_at`, `published_at`) are `Nat`
instants; `author` is a user id; `status` is the stored string, either
`"draft"` or `"published"` (STATUS_CHOICES).  The tag set and the image
reference play no role in any claim and are omitted. -/

structure Post where
  id : Nat
  title : String
  slug : String
  author : Nat
  content : String
  excerpt : String
  status : String
  published_at : Option Nat
  view_count : Nat
  reading_time : Nat
  is_featured : Bool
  created_at : Nat
  updated_at : Nat
deriving DecidableEq

/-! ### The Post.save derived-field pipeline (blog/models.py lines 53-69)

The overridden `save` runs four derivation steps on the instance, in
order, then calls `super().save(...)`.  Python truthiness on strings and
on `None` becomes emptiness / `Option` tests. -/

/-- Step 1 of `Post.save`: `if not self.slug: self.slug = slugify(self.title)`. -/
def Post.applySlug (p : Post) : Post :=
  if p.slug = "" then { p with slug := slugify p.title } else p

/-- Step 2 of `Post.save`: `if not self.excerpt and self.content:
self.excerpt = strip_tags(self.content)[:297] + "..."`. -/
def Post.applyExcerpt (p : Post) : Post :=
  if p.excerpt = "" ∧ p.content ≠ "" then
    { p with excerpt := strTake (stripTags p.content) 297 ++ "..." }
  else p

/-- Step 3 of `Post.save`: `if self.content: word_count =
len(strip_tags(self.content).split()); self.reading_time = max(1,
round(word_count / 200))`. -/
def Post.applyReadingTime (p : Post) : Post :=
  if p.content ≠ "" then
    { p with reading_time := max 1 (pyRound (wordCount (stripTags p.content)) 200) }
  else p

/-- Step 4 of `Post.save`: `if self.status == "published" and not
self.published_at: self.published_at = timezone.now()`. -/
def Post.applyPublishedAt (now : Nat) (p : Post) : Post :=
  if p.status = "published" ∧ p.published_at = none then
    { p with published_at := some now }
  else p

/-- The body of the overridden `Post.save` before `super().save(...)`:
the four derivation steps in source order. -/
def Post.savePipeline (now : Nat) (p : Post) : Post :=
  Post.applyPublishedAt now (Post.applyReadingTime (Post.applyExcerpt (Post.applySlug p)))

/-- Full `Post.save` (no `update_fields`): run the derivation pipeline on
the instance and persist every field; the `auto_now` field `updated_at`
is stamped by the base save.  `created_at` (`auto_now_add`) is taken as
already populated on the instance. -/
def Post.save (now : Nat) (p : Post) : Post :=
  { Post.savePipeline now p with updated_at := now }

/-- Models `Post.save(update_fields=["view_count"])` as called by
`increment_view_count`: the overridden save body still runs all four
derivation steps on the instance, but the database write persists only
`view_count`; `auto_now` does not touch `updated_at` since it is not in
`update_fields`.  Returns (new stored row, instance after save). -/
def Post.saveViewCountOnly (now : Nat) (stored snapshot : Post) : Post × Post :=
  let inst := Post.savePipeline now snapshot
  ({ stored with view_count := inst.view_count }, inst)

/-- Models `Post.increment_view_count` (blog/models.py lines 88-90):
`self.view_count += 1; self.save(update_fields=["view_count"])`.
`stored` is the database row at write time, `snapshot` the in-memory
instance the method runs on (they coincide unless a concurrent request
wrote between the load and the save). -/
def Post.increment_view_count (now : Nat) (stored snapshot : Post) : Post × Post :=
  Post.saveViewCountOnly now stored { snapshot with view_count := snapshot.view_count + 1 }

/-! ### Users and likes -/

/-- An authenticated-or-anonymous user reference, as Django hands request
handlers: an id plus the `is_authenticated` predicate (False exactly for
`AnonymousUser`). -/
structure UserRef where
  id : Nat
  is_authenticated : Bool
deriving DecidableEq

/-- A row of the `Like` table: `unique_together ("post", "user")`. -/
structure Like where
  postId : Nat
  userId : Nat
deriving DecidableEq

/-- Whether a `Like` row for `(post, user)` exists: models
`Like.objects.filter(post=post, user=user).exists()` as used through
`get_or_create` and `like_set.filter(user=user).exists()`. -/
def hasLike (db : List Like) (postId userId : Nat) : Bool :=
  db.any fun l => decide (l.postId = postId ∧ l.userId = userId)

/-- Models `Post.get_like_count` / `total_likes`: `self.like_set.count()`. -/
def get_like_count (db : List Like) (postId : Nat) : Nat :=
  (db.filter fun l => decide (l.postId = postId)).length

/-- Models `Post.user_has_liked` (blog/models.py lines 83-86): returns the
existence check when `user.is_authenticated`, else `False`. -/
def Post.user_has_liked (db : List Like) (postId : Nat) (user : UserRef) : Bool :=
  if user.is_authenticated then hasLike db postId user.id else false

/-- Models the like-toggle of `like_post` / `ajax_like_post`
(blog/views.py lines 304-334): `Like.objects.get_or_create(post, user)`
then delete when it already existed.  Under the `unique_together`
constraint at most one row matches, so deleting every matching row is
the deletion of that one row.  Returns (new table, `created`), where
`created = true` is reported as "liked" and `false` as "unliked". -/
def like_post (db : List Like) (postId userId : Nat) : List Like × Bool :=
  if hasLike db postId userId then
    (db.filter fun l => !(decide (l.postId = postId ∧ l.userId = userId)), false)
  else
    (db ++ [⟨postId, userId⟩], true)

/-! ### Comments (blog/models.py `Comment`) -/

/-- A row of the `Comment` table.  `parent` is the optional id of the
parent comment (single-level reply relation); `is_approved` defaults to
true; `created_at` is the auto timestamp the `Meta` ordering sorts by. -/
structure Comment where
  id : Nat
  postId : Nat
  userId : Nat
  content : String
  parent : Option Nat
  is_approved : Bool
  created_at : Nat
deriving DecidableEq

/-- The comparison underlying `order_by("-created_at")`: newest first. -/
def createdDesc (a b : Comment) : Prop := b.created_at ≤ a.created_at

/-- The comparison underlying the `Comment.Meta` default ordering
`["created_at"]`: oldest first. -/
def createdAsc (a b : Comment) : Prop := a.created_at ≤ b.created_at

instance : DecidableRel createdDesc := fun a b => Nat.decLe b.created_at a.created_at

instance : DecidableRel createdAsc := fun a b => Nat.decLe a.created_at b.created_at

instance : IsTotal Comment createdDesc :=
  ⟨fun a b => Nat.le_total b.created_at a.created_at⟩

instance : IsTrans Comment createdDesc :=
  ⟨fun _ _ _ h1 h2 => Nat.le_trans h2 h1⟩

instance : IsTotal Comment createdAsc :=
  ⟨fun a b => Nat.le_total a.created_at b.created_at⟩

instance : IsTrans Comment createdAsc :=
  ⟨fun _ _ _ h1 h2 => Nat.le_trans h1 h2⟩

/-- Models the default thread view of `PostDetailView.get_context_data`
(blog/views.py lines 151-154):
`post.comments.filter(parent__isnull=True, is_approved=True)
.order_by("-created_at")` — the approved top-level comments of the post,
newest first.  The SQL sort is modelled by a sort of the filtered rows. -/
def threadComments (db : List Comment) (postId : Nat) : List Comment :=
  List.insertionSort createdDesc
    (db.filter fun c => decide (c.postId = postId ∧ c.parent = none ∧ c.is_approved = true))

/-- Models `Comment.get_replies` (blog/models.py lines 108-109):
`self.replies.filter(is_approved=True)`, ordered by the `Meta` default
`["created_at"]` (ascending). -/
def Comment.get_replies (db : List Comment) (c : Comment) : List Comment :=
  List.insertionSort createdAsc
    (db.filter fun r => decide (r.parent = some c.id ∧ r.is_approved = true))

/-- Models `django.core.validators.MinLengthValidator(limit)` on a string
value: valid exactly when `limit <= len(value)`. -/
def min_length_valid (limit : Nat) (value : String) : Bool :=
  decide (limit ≤ value.length)

/-- Models `add_comment` (blog/views.py lines 280-301) acting on the
comment table.  The `CommentForm` is a ModelForm over `content`, whose
model field carries `MinLengthValidator(10)` (blog/models.py line 96):
`form.is_valid()` fails and nothing is inserted when the content is
shorter than 10 characters.  When a `parent_id` is posted, the parent is
resolved with `get_object_or_404`: a missing parent aborts the request
with no insertion.  Returns (new table, whether a comment was saved). -/
def add_comment (db : List Comment) (newId postId userId : Nat) (content : String)
    (parentId : Option Nat) (now : Nat) : List Comment × Bool :=
  if min_length_valid 10 content then
    match parentId with
    | some pid =>
      if db.any fun c => decide (c.id = pid) then
        (db ++ [{ id := newId, postId := postId, userId := userId, content := content,
                  parent := some pid, is_approved := true, created_at := now }], true)
      else (db, false)
    | none =>
      (db ++ [{ id := newId, postId := postId, userId := userId, content := content,
                parent := none, is_approved := true, created_at := now }], true)
  else (db, false)

/-! ### Post-detail visibility and the view-count side effect
(blog/views.py `PostDetailView`) -/

/-- Models `PostDetailView.get_queryset` (blog/views.py lines 119-132):
authenticated readers see published posts plus their own drafts;
anonymous readers see only published posts. -/
def detailQueryset (posts : List Post) (user : UserRef) : List Post :=
  if user.is_authenticated then
    posts.filter fun p =>
      decide (p.status = "published" ∨ (p.author = user.id ∧ p.status = "draft"))
  else
    posts.filter fun p => decide (p.status = "published")

/-- Models the view-count side effect of `PostDetailView.get_context_data`
(blog/views.py lines 138-140): `if post.status == "published":
post.increment_view_count()`, acting on a freshly loaded post (stored
row and in-memory instance coincide).  Returns (stored row after the
request, instance after the request). -/
def detailViewCountEffect (now : Nat) (post : Post) : Post × Post :=
  if post.status = "published" then Post.increment_view_count now post post
  else (post, post)

/-! ### Frame lemmas for the save-pipeline steps

Each derivation step of `Post.save` writes exactly one field; these
record which projections each step leaves untouched, plus the behaviour
of the field it writes. -/

@[simp] theorem applySlug_content (p : Post) : (Post.applySlug p).content = p.content := by
  unfold Post.applySlug; split <;> rfl

@[simp] theorem applySlug_excerpt (p : Post) : (Post.applySlug p).excerpt = p.excerpt := by
  unfold Post.applySlug; split <;> rfl

@[simp] theorem applySlug_status (p : Post) : (Post.applySlug p).status = p.status := by
  unfold Post.applySlug; split <;> rfl

@[simp] theorem applySlug_published_at (p : Post) :
    (Post.applySlug p).published_at = p.published_at := by
  unfold Post.applySlug; split <;> rfl

@[simp] theorem applySlug_view_count (p : Post) :
    (Post.applySlug p).view_count = p.view_count := by
  unfold Post.applySlug; split <;> rfl

@[simp] theorem applySlug_created_at (p : Post) :
    (Post.applySlug p).created_at = p.created_at := by
  unfold Post.applySlug; split <;> rfl

@[simp] theorem applyExcerpt_content (p : Post) : (Post.applyExcerpt p).content = p.content := by
  unfold Post.applyExcerpt; split <;> rfl

@[simp] theorem applyExcerpt_status (p : Post) : (Post.applyExcerpt p).status = p.status := by
  unfold Post.applyExcerpt; split <;> rfl

@[simp] theorem applyExcerpt_published_at (p : Post) :
    (Post.applyExcerpt p).published_at = p.published_at := by
  unfold Post.applyExcerpt; split <;> rfl

@[simp] theorem applyExcerpt_view_count (p : Post) :
    (Post.applyExcerpt p).view_count = p.view_count := by
  unfold Post.applyExcerpt; split <;> rfl

@[simp] theorem applyExcerpt_created_at (p : Post) :
    (Post.applyExcerpt p).created_at = p.created_at := by
  unfold Post.applyExcerpt; split <;> rfl

theorem applyExcerpt_excerpt_of_empty (p : Post) (h1 : p.excerpt = "") (h2 : p.content ≠ "") :
    (Post.applyExcerpt p).excerpt = strTake (stripTags p.content) 297 ++ "..." := by
  unfold Post.applyExcerpt; rw [if_pos ⟨h1, h2⟩]

theorem applyExcerpt_excerpt_of_filled (p : Post) (h : p.excerpt ≠ "") :
    (Post.applyExcerpt p).excerpt = p.excerpt := by
  unfold Post.applyExcerpt; split <;> simp_all

@[simp] theorem applyReadingTime_content (p : Post) :
    (Post.applyReadingTime p).content = p.content := by
  unfold Post.applyReadingTime; split <;> rfl

@[simp] theorem applyReadingTime_excerpt (p : Post) :
    (Post.applyReadingTime p).excerpt = p.excerpt := by
  unfold Post.applyReadingTime; split <;> rfl

@[simp] theorem applyReadingTime_status (p : Post) :
    (Post.applyReadingTime p).status = p.status := by
  unfold Post.applyReadingTime; split <;> rfl

@[simp] theorem applyReadingTime_published_at (p : Post) :
    (Post.applyReadingTime p).published_at = p.published_at := by
  unfold Post.applyReadingTime; split <;> rfl

@[simp] theorem applyReadingTime_view_count (p : Post) :
    (Post.applyReadingTime p).view_count = p.view_count := by
  unfold Post.applyReadingTime; split <;> rfl

@[simp] theorem applyReadingTime_created_at (p : Post) :
    (Post.applyReadingTime p).created_at = p.created_at := by
  unfold Post.applyReadingTime; split <;> rfl

theorem applyReadingTime_of_content (p : Post) (h : p.content ≠ "") :
    (Post.applyReadingTime p).reading_time
      = max 1 (pyRound (wordCount (stripTags p.content)) 200) := by
  unfold Post.applyReadingTime; rw [if_pos h]

@[simp] theorem applyPublishedAt_content (now : Nat) (p : Post) :
    (Post.applyPublishedAt now p).content = p.content := by
  unfold Post.applyPublishedAt; split <;> rfl

@[simp] theorem applyPublishedAt_excerpt (now : Nat) (p : Post) :
    (Post.applyPublishedAt now p).excerpt = p.excerpt := by
  unfold Post.applyPublishedAt; split <;> rfl

@[simp] theorem applyPublishedAt_status (now : Nat) (p : Post) :
    (Post.applyPublishedAt now p).status = p.status := by
  unfold Post.applyPublishedAt; split <;> rfl

@[simp] theorem applyPublishedAt_reading_time (now : Nat) (p : Post) :
    (Post.applyPublishedAt now p).reading_time = p.reading_time := by
  unfold Post.applyPublishedAt; split <;> rfl

@[simp] theorem applyPublishedAt_view_count (now : Nat) (p : Post) :
    (Post.applyPublishedAt now p).view_count = p.view_count := by
  unfold Post.applyPublishedAt; split <;> rfl

@[simp] theorem applyPublishedAt_created_at (now : Nat) (p : Post) :
    (Post.applyPublishedAt now p).created_at = p.created_at := by
  unfold Post.applyPublishedAt; split <;> rfl

theorem applyPublishedAt_stamp (now : Nat) (p : Post)
    (h1 : p.status = "published") (h2 : p.published_at = none) :
    (Post.applyPublishedAt now p).published_at = some now := by
  unfold Post.applyPublishedAt; rw [if_pos ⟨h1, h2⟩]

theorem applyPublishedAt_keep (now : Nat) (p : Post) (t : Nat)
    (h : p.published_at = some t) :
    (Post.applyPublishedAt now p).published_at = some t := by
  unfold Post.applyPublishedAt; split <;> simp_all

@[simp] theorem savePipeline_view_count (now : Nat) (p : Post) :
    (Post.savePipeline now p).view_count = p.view_count := by
  unfold Post.savePipeline; simp

@[simp] theorem save_published_at (now : Nat) (p : Post) :
    (Post.save now p).published_at = (Post.savePipeline now p).published_at := rfl

@[simp] theorem save_created_at (now : Nat) (p : Post) :
    (Post.save now p).created_at = p.created_at := by
  unfold Post.save Post.savePipeline; simp

@[simp] theorem save_excerpt (now : Nat) (p : Post) :
    (Post.save now p).excerpt = (Post.applyExcerpt (Post.applySlug p)).excerpt := by
  unfold Post.save Post.savePipeline; simp

@[simp] theorem save_reading_time (now : Nat) (p : Post) :
    (Post.save now p).reading_time
      = (Post.applyReadingTime (Post.applyExcerpt (Post.applySlug p))).reading_time := by
  unfold Post.save Post.savePipeline; simp

/-! ### Concrete sample records, used by the witness theorems -/

/-- A draft post with empty slug and excerpt, as freshly authored. -/
def samplePost : Post :=
  { id := 1, title := "Hello World Today", slug := "", author := 7,
    content := "a short body of sample text", excerpt := "", status := "draft",
    published_at := none, view_count := 0, reading_time := 0,
    is_featured := false, created_at := 3, updated_at := 3 }

/-- A published post whose stored derived fields are populated. -/
def samplePublished : Post :=
  { id := 2, title := "Second Post", slug := "second-post", author := 7,
    content := "hi world", excerpt := "an excerpt", status := "published",
    published_at := some 4, view_count := 0, reading_time := 99,
    is_featured := false, created_at := 3, updated_at := 4 }

/-! ### Claim theorems -/

/-- C1: for every post whose content is non-empty, `save` recomputes
`reading_time = max(1, round(word_count(strip_markup(content)) / 200))`
on every save, unconditionally and regardless of the prior stored value
of `reading_time`. -/
theorem reading_time_recomputed (p : Post) (now : Nat) (h : p.content ≠ "") :
    (Post.save now p).reading_time
      = max 1 (pyRound (wordCount (stripTags p.content)) 200) := by
  have hc : (Post.applyExcerpt (Post.applySlug p)).content = p.content := by simp
  rw [save_reading_time, applyReadingTime_of_content _ (by rw [hc]; exact h), hc]

/-- Witness for C1 at a concrete post with non-empty content. -/
theorem reading_time_recomputed_witness :
    (Post.save 5 samplePost).reading_time
      = max 1 (pyRound (wordCount (stripTags samplePost.content)) 200) :=
  reading_time_recomputed samplePost 5 (by decide)

/-- C2: the first save with status "published" and `published_at` unset
stamps `published_at` with the current time, making it non-null with
`created_at <= published_at` (under monotone time `created_at <= now`);
any save of a post whose `published_at` is already set leaves it
unchanged, and no save ever clears it. -/
theorem published_at_lifecycle (p : Post) (now : Nat) (hmono : p.created_at ≤ now) :
    (p.status = "published" → p.published_at = none →
       (Post.save now p).published_at = some now
         ∧ (Post.save now p).created_at ≤ now) ∧
    (∀ t : Nat, p.published_at = some t → (Post.save now p).published_at = some t) ∧
    ((Post.save now p).published_at = none → p.published_at = none) := by
  have hstat : (Post.applyReadingTime (Post.applyExcerpt (Post.applySlug p))).status
      = p.status := by simp
  have hpub : (Post.applyReadingTime (Post.applyExcerpt (Post.applySlug p))).published_at
      = p.published_at := by simp
  refine ⟨fun hs hn => ⟨?_, ?_⟩, fun t ht => ?_, fun hnone => ?_⟩
  · rw [save_published_at]
    unfold Post.savePipeline
    rw [applyPublishedAt_stamp _ _ (hstat.trans hs) (hpub.trans hn)]
  · rw [save_created_at]; exact hmono
  · rw [save_published_at]
    unfold Post.savePipeline
    rw [applyPublishedAt_keep _ _ t (hpub.trans ht)]
  · cases hp : p.published_at with
    | none => rfl
    | some t =>
      rw [save_published_at] at hnone
      unfold Post.savePipeline at hnone
      rw [applyPublishedAt_keep _ _ t (hpub.trans hp)] at hnone
      exact absurd hnone (by simp)

/-- Witness for C2: first publication of a concrete post stamps
`published_at`, and a post with `published_at` already set keeps it. -/
theorem published_at_lifecycle_witness :
    ((Post.save 5 { samplePost with status := "published" }).published_at = some 5
      ∧ (Post.save 5 { samplePost with status := "published" }).created_at ≤ 5) ∧
    (Post.save 9 samplePublished).published_at = some 4 :=
  ⟨(published_at_lifecycle { samplePost with status := "published" } 5 (by decide)).1
      (by decide) (by decide),
   (published_at_lifecycle samplePublished 9 (by decide)).2.1 4 (by decide)⟩

/-- C5: a save with empty excerpt and non-empty content sets the excerpt
to the first 297 characters of the markup-stripped content followed by
"..." ; a non-empty excerpt is preserved verbatim by every save. -/
theorem excerpt_autofill (p : Post) (now : Nat) :
    (p.excerpt = "" → p.content ≠ "" →
       (Post.save now p).excerpt = strTake (stripTags p.content) 297 ++ "...") ∧
    (p.excerpt ≠ "" → (Post.save now p).excerpt = p.excerpt) := by
  have he : (Post.applySlug p).excerpt = p.excerpt := by simp
  have hc : (Post.applySlug p).content = p.content := by simp
  constructor
  · intro h1 h2
    rw [save_excerpt, applyExcerpt_excerpt_of_empty _ (he.trans h1) (by rw [hc]; exact h2), hc]
  · intro h1
    rw [save_excerpt, applyExcerpt_excerpt_of_filled _ (by rw [he]; exact h1), he]

/-- Witness for C5 at concrete posts: auto-fill on an empty excerpt and
verbatim preservation of a supplied excerpt. -/
theorem excerpt_autofill_witness :
    (Post.save 5 samplePost).excerpt
        = strTake (stripTags samplePost.content) 297 ++ "..." ∧
    (Post.save 9 samplePublished).excerpt = samplePublished.excerpt :=
  ⟨(excerpt_autofill samplePost 5).1 (by decide) (by decide),
   (excerpt_autofill samplePublished 9).2 (by decide)⟩

/-- An older and a newer approved top-level comment on post 0, used to
exhibit the thread-view ordering. -/
def commentOld : Comment :=
  { id := 1, postId := 0, userId := 1, content := "first comment here",
    parent := none, is_approved := true, created_at := 0 }

/-- The newer of the two sample comments. -/
def commentNew : Comment :=
  { id := 2, postId := 0, userId := 2, content := "second comment here",
    parent := none, is_approved := true, created_at := 5 }

/-- C3 counterexample: the default thread view is NOT chronologically
ascending.  With two approved top-level comments created at times 0 and
5, `order_by("-created_at")` returns the newer one first, so the view
differs from the ascending (oldest-first) order the claim states. -/
theorem thread_view_order_counterexample :
    threadComments [commentOld, commentNew] 0 = [commentNew, commentOld] ∧
    threadComments [commentOld, commentNew] 0 ≠ [commentOld, commentNew] ∧
    ¬ List.Pairwise createdAsc (threadComments [commentOld, commentNew] 0) := by
  decide

/-- C3 as amended: the default thread view returns exactly the top-level
(parent is none) approved comments of the post, ordered chronologically
DESCENDING (newest first, `order_by("-created_at")`), and each comment's
replies query returns exactly its approved replies. -/
theorem thread_view_model (db : List Comment) (postId : Nat) :
    (∀ c : Comment, c ∈ threadComments db postId ↔
        c ∈ db ∧ c.postId = postId ∧ c.parent = none ∧ c.is_approved = true) ∧
    List.Pairwise createdDesc (threadComments db postId) ∧
    (∀ c r : Comment, r ∈ Comment.get_replies db c ↔
        r ∈ db ∧ r.parent = some c.id ∧ r.is_approved = true) := by
  refine ⟨fun c => ?_, ?_, fun c r => ?_⟩
  · unfold threadComments
    rw [List.mem_insertionSort, List.mem_filter]
    simp
  · exact List.sorted_insertionSort createdDesc _
  · unfold Comment.get_replies
    rw [List.mem_insertionSort, List.mem_filter]
    simp

/-- C4 (refuted at a concrete input): `increment_view_count` is a
read-modify-write pair, not a single atomic database increment, and its
`save(update_fields=["view_count"])` still runs the whole derived-field
pipeline on the instance.  First conjunct: with the stored row already
at `view_count = 1` (a concurrent request wrote between this request's
load and its save), the method persists `snapshot.view_count + 1 = 1`
instead of an atomic `stored + 1 = 2` — a lost update.  Second and third
conjuncts: the in-memory instance leaves the call with `reading_time`
recomputed from the content (99 became 1), so the derived-field
pipeline did run. -/
theorem increment_view_count_rmw :
    (Post.increment_view_count 5
        { samplePublished with view_count := 1 } samplePublished).1.view_count = 1 ∧
    (Post.increment_view_count 5 samplePublished samplePublished).2.reading_time = 1 ∧
    samplePublished.reading_time = 99 := by
  decide

/-- C6: toggling a like twice by the same user restores the original
state: starting with no Like row for `(post, user)`, the first call
creates one and reports "liked", the second deletes it and reports
"unliked", and the table (hence the like count) returns to its original
value. -/
theorem like_toggle_roundtrip (db : List Like) (postId userId : Nat)
    (h : hasLike db postId userId = false) :
    (like_post db postId userId).2 = true ∧
    (like_post (like_post db postId userId).1 postId userId).2 = false ∧
    (like_post (like_post db postId userId).1 postId userId).1 = db ∧
    get_like_count (like_post (like_post db postId userId).1 postId userId).1 postId
      = get_like_count db postId := by
  have hmem : ∀ l ∈ db, ¬(l.postId = postId ∧ l.userId = userId) := by
    intro l hl
    have := List.any_eq_false.mp (by unfold hasLike at h; exact h) l hl
    simpa using this
  have h1 : like_post db postId userId = (db ++ [⟨postId, userId⟩], true) := by
    unfold like_post
    rw [if_neg (by simp [h])]
  have h2 : hasLike (db ++ [(⟨postId, userId⟩ : Like)]) postId userId = true := by
    unfold hasLike
    simp
  have hkeep : ∀ a ∈ db, (!(decide (a.postId = postId ∧ a.userId = userId))) = true := by
    intro a ha
    rw [decide_eq_false (hmem a ha)]
    rfl
  have h3 : (db ++ [(⟨postId, userId⟩ : Like)]).filter
      (fun l => !(decide (l.postId = postId ∧ l.userId = userId))) = db := by
    rw [List.filter_append, List.filter_eq_self.mpr hkeep]
    simp
  have h4 : like_post (db ++ [(⟨postId, userId⟩ : Like)]) postId userId = (db, false) := by
    unfold like_post
    rw [if_pos h2, h3]
  exact ⟨by simp [h1], by simp [h1, h4], by simp [h1, h4], by simp [h1, h4]⟩

/-- Witness for C6: a double toggle on an empty Like table. -/
theorem like_toggle_roundtrip_witness :
    (like_post [] 0 3).2 = true ∧
    (like_post (like_post [] 0 3).1 0 3).2 = false ∧
    (like_post (like_post [] 0 3).1 0 3).1 = [] ∧
    get_like_count (like_post (like_post [] 0 3).1 0 3).1 0 = get_like_count [] 0 :=
  like_toggle_roundtrip [] 0 3 (by decide)

/-- C7: the post-detail queryset shows anonymous readers exactly the
published posts, shows authenticated readers exactly the published
posts plus their own drafts, and never yields another author's draft to
any reader. -/
theorem detail_visibility (posts : List Post) (p : Post) (u : UserRef) :
    (u.is_authenticated = false →
       (p ∈ detailQueryset posts u ↔ p ∈ posts ∧ p.status = "published")) ∧
    (u.is_authenticated = true →
       (p ∈ detailQueryset posts u ↔
         p ∈ posts ∧ (p.status = "published" ∨ (p.author = u.id ∧ p.status = "draft")))) ∧
    (p.status = "draft" → p.author ≠ u.id → p ∉ detailQueryset posts u) := by
  refine ⟨fun ha => ?_, fun ha => ?_, fun hd hne hmem => ?_⟩
  · unfold detailQueryset
    rw [ha]
    simp [List.mem_filter]
  · unfold detailQueryset
    rw [ha]
    simp [List.mem_filter]
  · unfold detailQueryset at hmem
    by_cases hb : u.is_authenticated = true
    · rw [if_pos hb, List.mem_filter] at hmem
      have h2 := of_decide_eq_true hmem.2
      rcases h2 with h2 | h2
      · rw [hd] at h2; exact absurd h2 (by decide)
      · exact hne h2.1
    · rw [if_neg hb, List.mem_filter] at hmem
      have h2 := of_decide_eq_true hmem.2
      rw [hd] at h2
      exact absurd h2 (by decide)

/-- Witness for C7: an anonymous reader does not retrieve a concrete
draft authored by user 7. -/
theorem detail_visibility_witness :
    samplePost ∉ detailQueryset [samplePublished, samplePost] ⟨0, false⟩ :=
  (detail_visibility [samplePublished, samplePost] samplePost ⟨0, false⟩).2.2
    (by decide) (by decide)

/-- C8: a comment submission whose content is shorter than 10 characters
is rejected before any insertion (the table is unchanged), and content
of exactly 10 characters passes validation and is inserted (boundary
inclusive, shown on a top-level submission). -/
theorem comment_length_boundary (db : List Comment) (newId postId userId : Nat)
    (content : String) (parentId : Option Nat) (now : Nat) :
    (content.length < 10 →
       add_comment db newId postId userId content parentId now = (db, false)) ∧
    (content.length = 10 →
       add_comment db newId postId userId content none now
         = (db ++ [{ id := newId, postId := postId, userId := userId, content := content,
                     parent := none, is_approved := true, created_at := now }], true)) := by
  constructor
  · intro h
    unfold add_comment
    rw [if_neg (by unfold min_length_valid; simp; omega)]
  · intro h
    unfold add_comment
    rw [if_pos (by unfold min_length_valid; simp [h])]

/-- Witness for C8: a 9-character content is rejected with the table
unchanged; a 10-character content is accepted. -/
theorem comment_length_boundary_witness :
    add_comment [] 1 0 2 "too short" none 7 = ([], false) ∧
    (add_comment [] 1 0 2 "exactly 10" none 7).2 = true :=
  ⟨(comment_length_boundary [] 1 0 2 "too short" none 7).1 (by decide),
   by rw [(comment_length_boundary [] 1 0 2 "exactly 10" none 7).2 (by decide)]⟩

/-- C9: `user_has_liked` applied to an unauthenticated (anonymous) user
reference returns `false`, whatever the Like table holds for the post;
the function is total, so no error is possible. -/
theorem user_has_liked_anonymous (db : List Like) (postId : Nat) (i : Nat) :
    Post.user_has_liked db postId ⟨i, false⟩ = false := rfl

/-- C10: the detail view increments the stored `view_count` (and only
that field) exactly when the post is published; a draft viewed by its
author through the detail view keeps every stored field unchanged. -/
theorem draft_detail_no_increment (post : Post) (now : Nat) :
    (post.status ≠ "published" → detailViewCountEffect now post = (post, post)) ∧
    (post.status = "published" →
       (detailViewCountEffect now post).1
         = { post with view_count := post.view_count + 1 }) := by
  constructor
  · intro h
    unfold detailViewCountEffect
    rw [if_neg h]
  · intro h
    unfold detailViewCountEffect
    rw [if_pos h]
    unfold Post.increment_view_count Post.saveViewCountOnly
    simp

/-- Witness for C10: a concrete draft is left untouched by the detail
view, and a concrete published post gets exactly a unit view-count
bump in its stored row. -/
theorem draft_detail_no_increment_witness :
    detailViewCountEffect 9 samplePost = (samplePost, samplePost) ∧
    (detailViewCountEffect 9 samplePublished).1
      = { samplePublished with view_count := samplePublished.view_count + 1 } :=
  ⟨(draft_detail_no_increment samplePost 9).1 (by decide),
   (draft_detail_no_increment samplePublished 9).2 (by decide)⟩

end Blogsite
